import Mathlib

/-!
Shallow embedding of the Smart Adaptive Camouflage Suit demo
(src/app.py and src/train_model.py) together with theorems settling the
specification claims. Python floats are modelled as rationals, Python
dicts of fixed shape as structures or an explicit JSON value type, and
the fallible hex parsing as Option-returning functions. The wall clock
consumed by the logger is passed in explicitly as the ISO timestamp
strings the successive datetime.utcnow() calls would return.
-/

namespace Suit

/-- Embeds the dataclass SensorReading of src/app.py: ambient RGB triple,
illuminance, colour temperature, ambient temperature, yaw, time-of-flight
distance and thermal reading. -/
structure SensorReading where
  rgb : Nat × Nat × Nat
  lux : ℚ
  cct : ℚ
  temperature_c : ℚ
  imu_yaw : ℚ
  tof_mm : ℚ
  thermal_c : ℚ
deriving DecidableEq

/-- The pattern dicts produced by TinyDecisionModel.predict and the manual
override block of src/app.py: a "darker" dict, a "thermal-match" dict, or a
"colour_fill" dict carrying an RGB triple. -/
inductive Pattern where
  | darker : Pattern
  | thermalMatch : Pattern
  | colourFill : Nat × Nat × Nat → Pattern
deriving DecidableEq

/-- Embeds the Python expression pred["pattern"].get("rgb",(0,0,0)) of the
LED-matrix dispatch branch: the rgb entry when the dict has one, else black. -/
def Pattern.getRgbD : Pattern → Nat × Nat × Nat
  | .colourFill c => c
  | _ => (0, 0, 0)

/-- The dict {"mode": ..., "pattern": ...} returned by
TinyDecisionModel.predict. -/
structure ModelOutput where
  mode : String
  pattern : Pattern
deriving DecidableEq

/-- The self.rules dict of TinyDecisionModel. -/
structure TinyRules where
  dark_threshold : ℚ
  thermal_threshold : ℚ

/-- The thresholds installed by TinyDecisionModel.__init__ in src/app.py. -/
def defaultTinyRules : TinyRules := { dark_threshold := 100, thermal_threshold := 25 }

/-- Embeds TinyDecisionModel.predict of src/app.py: lux below the dark
threshold gives low_light/darker; else a thermal reading above
thermal_threshold + 5 gives thermal/thermal-match; else visual_blend with a
colour_fill of the ambient RGB. -/
def predict (rules : TinyRules) (sensor : SensorReading) : ModelOutput :=
  if sensor.lux < rules.dark_threshold then
    { mode := "low_light", pattern := .darker }
  else if sensor.thermal_c > rules.thermal_threshold + 5 then
    { mode := "thermal", pattern := .thermalMatch }
  else
    { mode := "visual_blend", pattern := .colourFill sensor.rgb }

/-- Embeds the PowerManager of src/app.py. -/
structure PowerManager where
  battery_mah : ℚ
  voltage : ℚ

/-- PowerManager.worst_case_power_w of src/app.py. -/
def worst_case_power_w (actuator_power_w controller_power_w sensors_power_w : ℚ) : ℚ :=
  actuator_power_w + controller_power_w + sensors_power_w

/-- The value of PowerManager.expected_runtime_hours: either the Python
float("inf") or a finite number of hours. -/
inductive RuntimeResult where
  | posInf : RuntimeResult
  | hours : ℚ → RuntimeResult
deriving DecidableEq

/-- Embeds PowerManager.expected_runtime_hours of src/app.py: watt-hours
(mAh/1000 times volts) over the total draw, float("inf") when the total
draw is not positive. -/
def expected_runtime_hours (pm : PowerManager)
    (actuator_power_w controller_power_w sensors_power_w : ℚ) : RuntimeResult :=
  let total_w := worst_case_power_w actuator_power_w controller_power_w sensors_power_w
  let wh := pm.battery_mah / 1000 * pm.voltage
  if total_w ≤ 0 then .posInf else .hours (wh / total_w)

/-- The PowerManager instantiated by the app: battery_mah=3000, voltage=5.0. -/
def pmApp : PowerManager := { battery_mah := 3000, voltage := 5 }

/-- Embeds the SafetyManager of src/app.py; its __init__ default for
temp_cutoff_c is 60.0. -/
structure SafetyManager where
  temp_cutoff_c : ℚ

/-- A SafetyManager built with the constructor default temp_cutoff_c=60.0. -/
def defaultSafetyManager : SafetyManager := { temp_cutoff_c := 60 }

/-- The SafetyManager the app instantiates: SafetyManager(temp_cutoff_c=65.0). -/
def safetyApp : SafetyManager := { temp_cutoff_c := 65 }

/-- Embeds SafetyManager.check of src/app.py: conditionally appends the
three issue strings in order. -/
def check (m : SafetyManager) (sensor : SensorReading) : List String :=
  (if sensor.temperature_c > m.temp_cutoff_c then ["ambient_over_temp"] else []) ++
  (if sensor.thermal_c > m.temp_cutoff_c then ["thermal_patch_over_temperature"] else []) ++
  (if sensor.tof_mm < 50 then ["collision_risk_close_surface"] else [])

/-- Embeds evaluate_pattern_visibility of src/app.py. The Python guard
pattern.get("type")=="colour_fill" and "rgb" in pattern holds exactly for
the colour_fill dicts, which always carry an rgb entry. -/
def evaluate_pattern_visibility (sensor : SensorReading) (pattern : Pattern) : ℚ :=
  let base : ℚ := max 0 (1 - sensor.lux / 50000)
  let colour_penalty : ℚ :=
    match pattern with
    | .colourFill (r, g, b) =>
        let ambient : ℚ := ((sensor.rgb.1 : ℚ) + sensor.rgb.2.1 + sensor.rgb.2.2) / 3
        let pat_avg : ℚ := ((r : ℚ) + g + b) / 3
        |ambient - pat_avg| / 255
    | _ => 2 / 10
  let score := base + 1 / 2 * colour_penalty
  max 0 (min 1 score)

/-- The visibility formula as the specification words it: clamp(0,1,
base + 0.5 * colour_difference) with base = max(0, 1 - lux/50000) and
colour_difference the mean-RGB distance over 255 for ColourFill, else a
fixed constant (0.2 here, inside the spec's [0.2,0.25] band). Written from
the spec to be compared against evaluate_pattern_visibility. -/
def visibilitySpec (sensor : SensorReading) (pattern : Pattern) : ℚ :=
  let base : ℚ := max 0 (1 - sensor.lux / 50000)
  let colour_difference : ℚ :=
    match pattern with
    | .colourFill (r, g, b) =>
        |((sensor.rgb.1 : ℚ) + sensor.rgb.2.1 + sensor.rgb.2.2) / 3 - ((r : ℚ) + g + b) / 3| / 255
    | _ => 2 / 10
  max 0 (min 1 (base + 1 / 2 * colour_difference))

/-- A JSON value, as json.dump serialises the logger payload: strings,
numbers, arrays, objects (ordered key/value lists, Python dict insertion
order), and null (Python None). -/
inductive Json where
  | str : String → Json
  | num : ℚ → Json
  | arr : List Json → Json
  | obj : List (String × Json) → Json
  | nul : Json

/-- The top-level keys of a JSON object (empty for non-objects). -/
def Json.topKeys : Json → List String
  | .obj l => l.map Prod.fst
  | _ => []

/-- Association lookup among a JSON object's entries. -/
def Json.lookup (j : Json) (k : String) : Option Json :=
  match j with
  | .obj l => (l.find? (fun kv => kv.1 = k)).map Prod.snd
  | _ => none

mutual
/-- Every object key occurring anywhere in a JSON value, in serialisation
order. -/
def Json.allKeys : Json → List String
  | .str _ => []
  | .num _ => []
  | .nul => []
  | .arr l => Json.allKeysArr l
  | .obj l => Json.allKeysObj l

/-- Keys occurring in a list of JSON values. -/
def Json.allKeysArr : List Json → List String
  | [] => []
  | j :: rest => j.allKeys ++ Json.allKeysArr rest

/-- Keys occurring in an object entry list: each key, then its value's keys. -/
def Json.allKeysObj : List (String × Json) → List String
  | [] => []
  | (k, j) :: rest => k :: (j.allKeys ++ Json.allKeysObj rest)
end

/-- The keys of the pattern dict each Pattern variant serialises to. -/
def patKeys : Pattern → List String
  | .darker => ["type", "info"]
  | .thermalMatch => ["type", "info"]
  | .colourFill _ => ["type", "rgb"]

/-- Embeds asdict(sensor) as json.dump serialises it: field order of the
dataclass, the rgb tuple becoming an array. -/
def sensorJson (s : SensorReading) : Json :=
  .obj [("rgb", .arr [.num s.rgb.1, .num s.rgb.2.1, .num s.rgb.2.2]),
        ("lux", .num s.lux), ("cct", .num s.cct),
        ("temperature_c", .num s.temperature_c), ("imu_yaw", .num s.imu_yaw),
        ("tof_mm", .num s.tof_mm), ("thermal_c", .num s.thermal_c)]

/-- The pattern dicts of src/app.py as JSON objects, with the literal info
strings the code builds. -/
def patternJson : Pattern → Json
  | .darker => .obj [("type", .str "darker"),
      ("info", .str "reduce brightness, increase contrast edges")]
  | .thermalMatch => .obj [("type", .str "thermal-match"),
      ("info", .str "use thermochromic prototypes")]
  | .colourFill (r, g, b) => .obj [("type", .str "colour_fill"),
      ("rgb", .arr [.num r, .num g, .num b])]

/-- The model_output dict {"mode": ..., "pattern": ...} as JSON. -/
def modelJson (mo : ModelOutput) : Json :=
  .obj [("mode", .str mo.mode), ("pattern", patternJson mo.pattern)]

/-- The optional tag argument of DataLogger.save_reading as JSON. -/
def tagJson : Option String → Json
  | some t => .str t
  | none => .nul

/-- Embeds now_str() of src/app.py applied to the ISO string the enclosed
datetime.datetime.utcnow().isoformat() call returns: it appends "Z". The
ISO string is passed in as a list of characters. -/
def now_str (iso : List Char) : List Char := iso ++ ['Z']

/-- Embeds ts.replace(":","_") for the single-character pattern ":" used in
DataLogger.save_reading: every colon becomes an underscore. -/
def replaceColon (l : List Char) : List Char :=
  l.map (fun c => if c = ':' then '_' else c)

/-- The file name DataLogger.save_reading builds from the now_str() value of
its first clock call: "reading_" ++ timestamp-with-colons-replaced ++ ".json". -/
def fnameOf (iso : List Char) : List Char :=
  "reading_".toList ++ replaceColon (now_str iso) ++ ".json".toList

/-- The payload dict DataLogger.save_reading serialises, with the now_str()
value of its second clock call as the timestamp. -/
def payloadOf (iso : List Char) (sensor : SensorReading) (mo : ModelOutput)
    (tag : Option String) : Json :=
  .obj [("timestamp", .str (String.mk (now_str iso))),
        ("sensor", sensorJson sensor), ("model", modelJson mo),
        ("tag", tagJson tag)]

/-- Embeds DataLogger.save_reading of src/app.py: the two successive
now_str() calls it makes are passed in as the ISO strings isoName (used for
the file name) and isoPayload (stored in the payload); it returns the file
name together with the payload written there. -/
def save_reading (isoName isoPayload : List Char) (sensor : SensorReading)
    (mo : ModelOutput) (tag : Option String) : List Char × Json :=
  (fnameOf isoName, payloadOf isoPayload sensor mo tag)

/-- The storage directory as a map from file names to file contents. -/
def Store : Type := List Char → Option Json

/-- The directory before any write. -/
def emptyStore : Store := fun _ => none

/-- Embeds open(fname,"w") followed by json.dump: the file at this name now
holds exactly the new payload, other files are untouched. -/
def writeFile (st : Store) (name : List Char) (payload : Json) : Store :=
  fun m => if m = name then some payload else st m

/-- The value of one hex digit, as int(...,16) reads characters 0-9, a-f,
A-F; none for any other character. -/
def hexDigitVal (c : Char) : Option Nat :=
  if '0' ≤ c ∧ c ≤ '9' then some (c.toNat - '0'.toNat)
  else if 'a' ≤ c ∧ c ≤ 'f' then some (c.toNat - 'a'.toNat + 10)
  else if 'A' ≤ c ∧ c ≤ 'F' then some (c.toNat - 'A'.toNat + 10)
  else none

/-- Embeds int(s,16) on the hash-stripped slices arising in the override
block (strings of '#', ASCII letters and digits): the value of a non-empty
all-hex-digit string, none (a ValueError) otherwise. The Python function
also tolerates signs, spaces and a 0x prefix, none of which occur in such
slices. -/
def hexToNat : List Char → Option Nat
  | [] => none
  | [c] => hexDigitVal c
  | c :: rest => do
      let hi ← hexDigitVal c
      let lo ← hexToNat rest
      pure (hi * 16 ^ rest.length + lo)

/-- Embeds manual_rgb.lstrip("#"): drops every leading '#'. -/
def lstripHash : List Char → List Char
  | '#' :: rest => lstripHash rest
  | l => l

/-- The Python slice s[i:i+2] on a character list. -/
def slice2 (l : List Char) (i : Nat) : List Char := (l.drop i).take 2

/-- Embeds the override conversion of src/app.py: after lstrip("#"), parse
the slices [0:2], [2:4], [4:6] with int(...,16); any ValueError is none. -/
def parseOverride (s : List Char) : Option (Nat × Nat × Nat) := do
  let hexcode := lstripHash s
  let r ← hexToNat (slice2 hexcode 0)
  let g ← hexToNat (slice2 hexcode 2)
  let b ← hexToNat (slice2 hexcode 4)
  pure (r, g, b)

/-- The characters an override string may draw from for the ValueError
analysis to be exact: '#', ASCII digits and ASCII letters. -/
def hashAlnum (c : Char) : Prop :=
  c = '#' ∨ ('0' ≤ c ∧ c ≤ '9') ∨ ('a' ≤ c ∧ c ≤ 'z') ∨ ('A' ≤ c ∧ c ≤ 'Z')

instance (c : Char) : Decidable (hashAlnum c) := by
  unfold hashAlnum; infer_instance

/-- The uncaught Python exception that aborts a run of the if run_demo
block: the ValueError raised by int(...,16) on a malformed override. -/
inductive PipelineError where
  | valueError : PipelineError
deriving DecidableEq

/-- What one completed run of the if run_demo block of src/app.py produces:
the mode label and (possibly overridden) pattern of pred, the safety
issues, the visibility score, the runtime estimate, and the file name and
payload passed to the logger. -/
structure DecisionResult where
  mode : String
  pattern : Pattern
  issues : List String
  score : ℚ
  runtime : RuntimeResult
  fname : List Char
  payload : Json

/-- Embeds one run of the if run_demo block of src/app.py: safety check
with the 65 °C cutoff, TinyDecisionModel.predict, the manual-override hex
conversion (whose ValueError aborts the run), visibility scoring of the
resulting pattern, the runtime estimate at the default wattages, and
save_reading with tag=env. The two logger clock calls are passed in as
isoName and isoPayload. -/
def runPipeline (isoName isoPayload : List Char) (env : String)
    (sensor : SensorReading) (override : Option (List Char)) :
    Except PipelineError DecisionResult :=
  let issues := check safetyApp sensor
  let pred := predict defaultTinyRules sensor
  let patE : Except PipelineError Pattern :=
    match override with
    | none => .ok pred.pattern
    | some s =>
        match parseOverride s with
        | none => .error .valueError
        | some rgb => .ok (.colourFill rgb)
  patE.map fun pat =>
    let saved := save_reading isoName isoPayload sensor { mode := pred.mode, pattern := pat } (some env)
    { mode := pred.mode, pattern := pat, issues := issues,
      score := evaluate_pattern_visibility sensor pat,
      runtime := expected_runtime_hours pmApp 5 1 (1 / 2),
      fname := saved.1, payload := saved.2 }

/-- The pattern of a completed run, none when the run aborted. -/
def resultPattern : Except PipelineError DecisionResult → Option Pattern
  | .ok r => some r.pattern
  | .error _ => none

/-- The mode label of a completed run, none when the run aborted. -/
def resultMode : Except PipelineError DecisionResult → Option String
  | .ok r => some r.mode
  | .error _ => none

/-- The logger payload of a completed run, none when the run aborted. -/
def resultPayload : Except PipelineError DecisionResult → Option Json
  | .ok r => some r.payload
  | .error _ => none

/-- Embeds the LEDMatrixActuator of src/app.py: dimensions and the stored
per-cell RGB grid. -/
structure LEDMatrixActuator where
  width : Nat
  height : Nat
  state : List (List (Nat × Nat × Nat))

/-- LEDMatrixActuator.__init__: an all-black width-by-height grid. -/
def ledInit (width height : Nat) : LEDMatrixActuator :=
  { width := width, height := height,
    state := List.replicate height (List.replicate width (0, 0, 0)) }

/-- The LEDMatrixActuator(width=16,height=8) the app instantiates. -/
def ledAct : LEDMatrixActuator := ledInit 16 8

/-- LEDMatrixActuator.apply_pattern: self.state = pattern, a full
replacement. -/
def apply_pattern (act : LEDMatrixActuator) (grid : List (List (Nat × Nat × Nat))) :
    LEDMatrixActuator :=
  { act with state := grid }

/-- The grid the LED-matrix dispatch branch of src/app.py builds: every
cell is pred["pattern"].get("rgb",(0,0,0)). -/
def ledGridFor (act : LEDMatrixActuator) (p : Pattern) : List (List (Nat × Nat × Nat)) :=
  List.replicate act.height (List.replicate act.width p.getRgbD)

/-- Embeds the mode-labelling rules of src/train_model.py: lux < 120 gives
low_light, else thermal above 32 gives thermal, else visual_blend. -/
def trainLabel (lux thermal_temp : ℚ) : String :=
  if lux < 120 then "low_light"
  else if thermal_temp > 32 then "thermal"
  else "visual_blend"

/-! Concrete readings used as witnesses and counterexample inputs: the
urban and night presets of simulate_sensor at zero jitter, and readings
exercising particular branches. -/

/-- The urban preset of simulate_sensor at zero jitter, with thermal 29. -/
def urbanReading : SensorReading :=
  { rgb := (120, 120, 120), lux := 15000, cct := 5600, temperature_c := 29,
    imu_yaw := 0, tof_mm := 180, thermal_c := 29 }

/-- The night preset of simulate_sensor at zero jitter: lux 50. -/
def nightReading : SensorReading :=
  { rgb := (10, 10, 20), lux := 50, cct := 3000, temperature_c := 22,
    imu_yaw := 0, tof_mm := 120, thermal_c := 22 }

/-- A reading with ambient temperature 62 °C, between the constructor
default cutoff (60) and the app's configured cutoff (65). -/
def warmReading : SensorReading :=
  { rgb := (100, 100, 100), lux := 1000, cct := 5000, temperature_c := 62,
    imu_yaw := 0, tof_mm := 100, thermal_c := 20 }

/-- A reading with lux 110, inside [100,120) where the training labeller
and the app classifier disagree. -/
def midLuxReading : SensorReading :=
  { rgb := (50, 50, 50), lux := 110, cct := 5000, temperature_c := 30,
    imu_yaw := 0, tof_mm := 100, thermal_c := 20 }

/-- A bright, hot reading (lux 150, thermal 40) on which the training
labeller and the app classifier agree on thermal. -/
def hotReading : SensorReading :=
  { rgb := (10, 10, 10), lux := 150, cct := 5000, temperature_c := 30,
    imu_yaw := 0, tof_mm := 100, thermal_c := 40 }

/-- A concrete ISO timestamp string as datetime.utcnow().isoformat()
returns it, microsecond precision. -/
def isoA : List Char := "2025-10-12T11:42:00.123456".toList

/-- A second ISO timestamp, one microsecond after isoA. -/
def isoB : List Char := "2025-10-12T11:42:00.123457".toList

/-! Helper lemmas about the logger's file naming. -/

theorem replaceColon_injOn : ∀ l1 l2 : List Char, '_' ∉ l1 → '_' ∉ l2 →
    replaceColon l1 = replaceColon l2 → l1 = l2 := by
  intro l1
  induction l1 with
  | nil =>
    intro l2 _ _ h
    cases l2 with
    | nil => rfl
    | cons b t2 => simp [replaceColon] at h
  | cons a t ih =>
    intro l2 h1 h2 h
    cases l2 with
    | nil => simp [replaceColon] at h
    | cons b t2 =>
      simp only [replaceColon, List.map_cons, List.cons.injEq] at h
      obtain ⟨hhead, htail⟩ := h
      have ha : a ≠ '_' := fun hc => h1 (by simp [hc])
      have hb : b ≠ '_' := fun hc => h2 (by simp [hc])
      have hat : '_' ∉ t := fun hc => h1 (List.mem_cons_of_mem a hc)
      have hbt : '_' ∉ t2 := fun hc => h2 (List.mem_cons_of_mem b hc)
      have heq : a = b := by
        by_cases hac : a = ':' <;> by_cases hbc : b = ':'
        · exact hac.trans hbc.symm
        · rw [if_pos hac, if_neg hbc] at hhead
          exact absurd hhead.symm hb
        · rw [if_neg hac, if_pos hbc] at hhead
          exact absurd hhead ha
        · rw [if_neg hac, if_neg hbc] at hhead
          exact hhead
      exact by rw [heq, ih t2 hat hbt htail]

theorem fnameOf_injOn (t1 t2 : List Char) (h1 : '_' ∉ t1) (h2 : '_' ∉ t2)
    (h : fnameOf t1 = fnameOf t2) : t1 = t2 := by
  unfold fnameOf at h
  have hmid : replaceColon (now_str t1) = replaceColon (now_str t2) :=
    List.append_cancel_left (List.append_cancel_right h)
  have hz1 : '_' ∉ now_str t1 := by
    simp only [now_str, List.mem_append, List.mem_singleton]
    rintro (hc | hc)
    · exact h1 hc
    · exact absurd hc (by decide)
  have hz2 : '_' ∉ now_str t2 := by
    simp only [now_str, List.mem_append, List.mem_singleton]
    rintro (hc | hc)
    · exact h2 hc
    · exact absurd hc (by decide)
  have := replaceColon_injOn (now_str t1) (now_str t2) hz1 hz2 hmid
  simpa [now_str] using this

theorem predict_urban : predict defaultTinyRules urbanReading =
    { mode := "visual_blend", pattern := .colourFill (120, 120, 120) } := by
  norm_num [predict, defaultTinyRules, urbanReading]

theorem predict_midLux : predict defaultTinyRules midLuxReading =
    { mode := "visual_blend", pattern := .colourFill (50, 50, 50) } := by
  norm_num [predict, defaultTinyRules, midLuxReading]

theorem payload_allKeys (iso : List Char) (s : SensorReading) (mo : ModelOutput)
    (tag : Option String) :
    (payloadOf iso s mo tag).allKeys =
      ["timestamp", "sensor", "rgb", "lux", "cct", "temperature_c", "imu_yaw",
       "tof_mm", "thermal_c", "model", "mode", "pattern"] ++ patKeys mo.pattern ++ ["tag"] := by
  obtain ⟨mode, pat⟩ := mo
  cases tag <;> rcases pat with _ | _ | ⟨r, g, b⟩ <;>
    simp [payloadOf, sensorJson, modelJson, patternJson, tagJson, patKeys,
      Json.allKeys, Json.allKeysObj, Json.allKeysArr]

/-- C1: the rule-based classifier at its default thresholds (dark threshold
100 lux, effective thermal threshold 25+5 = 30 °C) returns low_light below
the dark threshold, else thermal above the thermal threshold, else
visual_blend with a colour_fill of the ambient RGB; in particular lux=50
gives low_light regardless of the other fields, lux=15000 with thermal=40
gives thermal, and lux=15000 with thermal=29 gives visual_blend whose
pattern RGB is exactly the reading's ambient RGB. -/
theorem C1_rule_classifier :
    defaultTinyRules.dark_threshold = 100 ∧
    defaultTinyRules.thermal_threshold + 5 = 30 ∧
    (∀ s : SensorReading, s.lux < 100 →
      predict defaultTinyRules s = { mode := "low_light", pattern := .darker }) ∧
    (∀ s : SensorReading, ¬ s.lux < 100 → s.thermal_c > 30 →
      predict defaultTinyRules s = { mode := "thermal", pattern := .thermalMatch }) ∧
    (∀ s : SensorReading, ¬ s.lux < 100 → ¬ s.thermal_c > 30 →
      predict defaultTinyRules s = { mode := "visual_blend", pattern := .colourFill s.rgb }) ∧
    (∀ s : SensorReading, s.lux = 50 → (predict defaultTinyRules s).mode = "low_light") ∧
    (∀ s : SensorReading, s.lux = 15000 → s.thermal_c = 40 →
      (predict defaultTinyRules s).mode = "thermal") ∧
    (∀ s : SensorReading, s.lux = 15000 → s.thermal_c = 29 →
      predict defaultTinyRules s = { mode := "visual_blend", pattern := .colourFill s.rgb }) := by
  refine ⟨rfl, by norm_num [defaultTinyRules], ?_, ?_, ?_, ?_, ?_, ?_⟩
  · intro s h
    simp [predict, defaultTinyRules, h]
  · intro s h1 h2
    have h2' : s.thermal_c > 25 + 5 := by linarith
    simp [predict, defaultTinyRules, h1, h2']
  · intro s h1 h2
    have h2' : ¬ s.thermal_c > 25 + 5 := by
      intro hc
      exact h2 (by linarith)
    simp [predict, defaultTinyRules, h1, h2']
  · intro s h
    have h' : s.lux < 100 := by rw [h]; norm_num
    simp [predict, defaultTinyRules, h']
  · intro s h1 h2
    have ha : ¬ s.lux < 100 := by rw [h1]; norm_num
    have hb : s.thermal_c > 25 + 5 := by rw [h2]; norm_num
    simp [predict, defaultTinyRules, ha, hb]
  · intro s h1 h2
    have ha : ¬ s.lux < 100 := by rw [h1]; norm_num
    have hb : ¬ s.thermal_c > 25 + 5 := by rw [h2]; norm_num
    simp [predict, defaultTinyRules, ha, hb]

/-- Witness for C1: the urban reading (lux 15000, thermal 29) is classified
visual_blend with its own ambient RGB. -/
theorem C1_rule_classifier_witness :
    predict defaultTinyRules urbanReading =
      { mode := "visual_blend", pattern := .colourFill (120, 120, 120) } :=
  C1_rule_classifier.2.2.2.2.2.2.2 urbanReading (by norm_num [urbanReading])
    (by norm_num [urbanReading])

/-- C2 counterexample: with the malformed override "zzzzzz" the run aborts
with the uncaught ValueError of int(...,16) — the pipeline does not
continue, and no record (hence no unmodified classifier output) is produced
for that run, contrary to the claim. -/
theorem C2_override_error_counterexample :
    runPipeline isoA isoB "urban" urbanReading (some ("zzzzzz".toList)) =
      .error .valueError ∧
    resultPayload (runPipeline isoA isoB "urban" urbanReading (some ("zzzzzz".toList))) = none :=
  ⟨rfl, rfl⟩

/-- C2 as amended: a malformed override (over '#', ASCII digits and
letters) makes the hex conversion fail, and the run aborts with the
ValueError before any pattern is constructed — no default colour is
substituted and nothing further (dispatch, scoring, logging) happens. -/
theorem C2_override_error_theorem :
    ∀ (isoName isoPayload : List Char) (env : String) (s : SensorReading)
      (ov : List Char), (∀ c ∈ ov, hashAlnum c) → parseOverride ov = none →
      runPipeline isoName isoPayload env s (some ov) = .error .valueError := by
  intro isoName isoPayload env s ov _ hpo
  simp [runPipeline, hpo, Except.map]

/-- Witness for C2: the amended theorem applied to the urban reading and
the override "zzzzzz". -/
theorem C2_override_error_witness :
    runPipeline isoA isoB "urban" urbanReading (some ("zzzzzz".toList)) =
      Except.error PipelineError.valueError :=
  C2_override_error_theorem isoA isoB "urban" urbanReading ("zzzzzz".toList)
    (by decide) (by decide)

/-- C3 counterexample: two save_reading calls that observe the identical
microsecond timestamp derive the identical file name, so the identifiers
of the two calls are not pairwise distinct, and the second write replaces
the first record at that name. -/
theorem C3_logger_counterexample :
    ¬ (([isoA, isoA].map fnameOf).Pairwise (· ≠ ·)) ∧
    writeFile (writeFile emptyStore (fnameOf isoA) (.str "first"))
        (fnameOf isoA) (.str "second") (fnameOf isoA) = some (.str "second") := by
  constructor
  · decide
  · simp [writeFile]

/-- C3 as amended: the file name is derived injectively from the observed
timestamp (for underscore-free ISO strings), so calls observing pairwise
distinct timestamps — even within the same second — return pairwise
distinct identifiers; and a write never touches any other identifier, so
distinct identifiers never overwrite earlier records. Calls observing the
identical timestamp do collide (there is no nonce). -/
theorem C3_logger_theorem :
    (∀ isos : List (List Char), (∀ t ∈ isos, '_' ∉ t) →
      isos.Pairwise (· ≠ ·) → (isos.map fnameOf).Pairwise (· ≠ ·)) ∧
    (∀ (st : Store) (n : List Char) (p : Json) (m : List Char), m ≠ n →
      writeFile st n p m = st m) := by
  constructor
  · intro isos hfree hpw
    rw [List.pairwise_map]
    refine List.Pairwise.imp_of_mem ?_ hpw
    intro a b ha hb hne heq
    exact hne (fnameOf_injOn a b (hfree a ha) (hfree b hb) heq)
  · intro st n p m hne
    simp [writeFile, hne]

/-- Witness for C3: two successive microsecond timestamps give distinct
file names, and writing the first file leaves the second name untouched. -/
theorem C3_logger_witness :
    (([isoA, isoB].map fnameOf).Pairwise (· ≠ ·)) ∧
    writeFile emptyStore (fnameOf isoA) (.str "first") (fnameOf isoB) =
      emptyStore (fnameOf isoB) :=
  ⟨C3_logger_theorem.1 [isoA, isoB] (by decide) (by decide),
   C3_logger_theorem.2 emptyStore (fnameOf isoA) (.str "first") (fnameOf isoB) (by decide)⟩

/-- C4 counterexample: the record a concrete run persists holds exactly the
keys timestamp/sensor(+fields)/model(mode,pattern)/tag — no safety issues,
no visibility score and no runtime estimate are persisted anywhere in it,
contrary to the claim. -/
theorem C4_record_counterexample :
    resultPayload (runPipeline isoA isoB "urban" urbanReading none) =
      some ((save_reading isoA isoB urbanReading
        (predict defaultTinyRules urbanReading) (some "urban")).2) ∧
    (save_reading isoA isoB urbanReading (predict defaultTinyRules urbanReading)
        (some "urban")).2.allKeys =
      ["timestamp", "sensor", "rgb", "lux", "cct", "temperature_c", "imu_yaw",
       "tof_mm", "thermal_c", "model", "mode", "pattern", "type", "rgb", "tag"] ∧
    "score" ∉ (save_reading isoA isoB urbanReading
      (predict defaultTinyRules urbanReading) (some "urban")).2.allKeys ∧
    "runtime" ∉ (save_reading isoA isoB urbanReading
      (predict defaultTinyRules urbanReading) (some "urban")).2.allKeys ∧
    "issues" ∉ (save_reading isoA isoB urbanReading
      (predict defaultTinyRules urbanReading) (some "urban")).2.allKeys := by
  refine ⟨rfl, ?_, ?_, ?_, ?_⟩ <;>
    · simp only [save_reading, payload_allKeys, predict_urban, patKeys]
      decide

/-- C4 as amended: every persisted record contains the timestamp (the ISO
string of the logger's clock with a trailing 'Z'), the full sensor reading
fields, the mode, the pattern descriptor and the tag — and nothing else: in
particular no safety-issue, visibility-score or runtime field exists at any
nesting level. -/
theorem C4_record_theorem :
    ∀ (isoName isoPayload : List Char) (s : SensorReading) (mo : ModelOutput)
      (tag : Option String),
      ((save_reading isoName isoPayload s mo tag).2).topKeys =
        ["timestamp", "sensor", "model", "tag"] ∧
      ((save_reading isoName isoPayload s mo tag).2).lookup "timestamp" =
        some (.str (String.mk (isoPayload ++ ['Z']))) ∧
      (isoPayload ++ ['Z']).getLast? = some 'Z' ∧
      ((save_reading isoName isoPayload s mo tag).2).lookup "sensor" =
        some (sensorJson s) ∧
      (sensorJson s).topKeys =
        ["rgb", "lux", "cct", "temperature_c", "imu_yaw", "tof_mm", "thermal_c"] ∧
      ((save_reading isoName isoPayload s mo tag).2).lookup "model" =
        some (modelJson mo) ∧
      (modelJson mo).lookup "mode" = some (.str mo.mode) ∧
      (modelJson mo).lookup "pattern" = some (patternJson mo.pattern) ∧
      ((save_reading isoName isoPayload s mo tag).2).lookup "tag" =
        some (tagJson tag) ∧
      ((save_reading isoName isoPayload s mo tag).2).allKeys =
        ["timestamp", "sensor", "rgb", "lux", "cct", "temperature_c", "imu_yaw",
         "tof_mm", "thermal_c", "model", "mode", "pattern"] ++ patKeys mo.pattern ++ ["tag"] ∧
      "score" ∉ ((save_reading isoName isoPayload s mo tag).2).allKeys ∧
      "runtime" ∉ ((save_reading isoName isoPayload s mo tag).2).allKeys ∧
      "issues" ∉ ((save_reading isoName isoPayload s mo tag).2).allKeys := by
  intro isoName isoPayload s mo tag
  refine ⟨rfl, rfl, by simp, rfl, rfl, rfl, rfl, rfl, rfl,
    payload_allKeys isoPayload s mo tag, ?_, ?_, ?_⟩ <;>
  · simp only [save_reading, payload_allKeys]
    rcases mo.pattern with _ | _ | ⟨r, g, b⟩ <;> simp [patKeys]

/-- C5: a well-formed manual override always forces a colour_fill pattern
with exactly the override RGB ("#ff0000" gives (255,0,0)) regardless of the
classified mode, while the classifier's mode label is left unchanged and is
the one stored in the persisted record. -/
theorem C5_override_theorem :
    ∀ (isoName isoPayload : List Char) (env : String) (s : SensorReading)
      (ov : List Char) (r g b : Nat), parseOverride ov = some (r, g, b) →
      resultPattern (runPipeline isoName isoPayload env s (some ov)) =
        some (.colourFill (r, g, b)) ∧
      resultMode (runPipeline isoName isoPayload env s (some ov)) =
        some ((predict defaultTinyRules s).mode) ∧
      resultPayload (runPipeline isoName isoPayload env s (some ov)) =
        some (payloadOf isoPayload s
          { mode := (predict defaultTinyRules s).mode, pattern := .colourFill (r, g, b) }
          (some env)) := by
  intro isoName isoPayload env s ov r g b hpo
  refine ⟨?_, ?_, ?_⟩ <;>
    simp [runPipeline, hpo, Except.map, resultPattern, resultMode, resultPayload,
      save_reading]

/-- Witness for C5: overriding with "#ff0000" on the night reading (whose
classified mode is low_light) yields colour_fill (255,0,0) with the
low_light mode label kept and recorded. -/
theorem C5_override_witness :
    resultPattern (runPipeline isoA isoB "night" nightReading (some ("#ff0000".toList))) =
      some (.colourFill (255, 0, 0)) ∧
    resultMode (runPipeline isoA isoB "night" nightReading (some ("#ff0000".toList))) =
      some ((predict defaultTinyRules nightReading).mode) ∧
    resultPayload (runPipeline isoA isoB "night" nightReading (some ("#ff0000".toList))) =
      some (payloadOf isoB nightReading
        { mode := (predict defaultTinyRules nightReading).mode,
          pattern := .colourFill (255, 0, 0) } (some "night")) :=
  C5_override_theorem isoA isoB "night" nightReading ("#ff0000".toList) 255 0 0 (by decide)

/-- C6 counterexample: the SafetyManager constructor default cutoff is
60 °C, not 65 °C — a reading at 62 °C ambient already raises
ambient_over_temp under the default manager although 62 is below 65. -/
theorem C6_safety_counterexample :
    defaultSafetyManager.temp_cutoff_c = 60 ∧
    defaultSafetyManager.temp_cutoff_c ≠ 65 ∧
    check defaultSafetyManager warmReading = ["ambient_over_temp"] ∧
    warmReading.temperature_c = 62 ∧ ¬ warmReading.temperature_c > 65 := by
  refine ⟨rfl, by decide, by decide, rfl, by decide⟩

/-- C6 as amended: check returns exactly the issues ambient_over_temp iff
ambient temperature exceeds the cutoff, thermal_patch_over_temperature iff
the thermal reading exceeds the cutoff, and collision_risk_close_surface
iff the time-of-flight distance is below 50 mm; the issue list never
repeats an issue; it is a pure function of the reading (definitional in
this embedding); the constructor default cutoff is 60 °C, and the pipeline
instantiates the evaluator with a 65 °C cutoff. -/
theorem C6_safety_theorem :
    (∀ (m : SafetyManager) (s : SensorReading) (x : String),
      x ∈ check m s ↔
        (x = "ambient_over_temp" ∧ s.temperature_c > m.temp_cutoff_c) ∨
        (x = "thermal_patch_over_temperature" ∧ s.thermal_c > m.temp_cutoff_c) ∨
        (x = "collision_risk_close_surface" ∧ s.tof_mm < 50)) ∧
    (∀ (m : SafetyManager) (s : SensorReading), (check m s).Nodup) ∧
    defaultSafetyManager.temp_cutoff_c = 60 ∧ safetyApp.temp_cutoff_c = 65 := by
  refine ⟨?_, ?_, rfl, rfl⟩
  · intro m s x
    unfold check
    by_cases h1 : s.temperature_c > m.temp_cutoff_c <;>
      by_cases h2 : s.thermal_c > m.temp_cutoff_c <;>
        by_cases h3 : s.tof_mm < 50 <;>
          simp [h1, h2, h3]
  · intro m s
    unfold check
    by_cases h1 : s.temperature_c > m.temp_cutoff_c <;>
      by_cases h2 : s.thermal_c > m.temp_cutoff_c <;>
        by_cases h3 : s.tof_mm < 50 <;>
          simp [h1, h2, h3]

/-- C7 counterexample: at lux 110 (thermal 20) the training labeller of
src/train_model.py says low_light while TinyDecisionModel.predict says
visual_blend — the two threshold rule sets differ (120 vs 100 lux, 32 vs
30 °C). -/
theorem C7_train_counterexample :
    trainLabel midLuxReading.lux midLuxReading.thermal_c = "low_light" ∧
    (predict defaultTinyRules midLuxReading).mode = "visual_blend" ∧
    midLuxReading.lux = 110 ∧ midLuxReading.thermal_c = 20 ∧
    ("low_light" : String) ≠ "visual_blend" := by
  refine ⟨by norm_num [trainLabel, midLuxReading], by rw [predict_midLux], rfl, rfl, by decide⟩

/-- C7 as amended: the training labeller follows the same three-branch rule
structure as the rule-based classifier but with thresholds 120 lux and
32 °C instead of 100 lux and 30 °C; the two assign the same label to every
feature vector outside the disagreement bands lux in [100,120) and thermal
in (30,32]. -/
theorem C7_train_theorem :
    ∀ s : SensorReading, (s.lux < 100 ∨ 120 ≤ s.lux) →
      (s.thermal_c ≤ 30 ∨ 32 < s.thermal_c) →
      trainLabel s.lux s.thermal_c = (predict defaultTinyRules s).mode := by
  intro s h1 h2
  rcases h1 with hl | hl
  · have h120 : s.lux < 120 := by linarith
    simp [trainLabel, predict, defaultTinyRules, h120, hl]
  · have h120 : ¬ s.lux < 120 := not_lt.mpr hl
    have h100 : ¬ s.lux < 100 := not_lt.mpr (by linarith)
    rcases h2 with ht | ht
    · have hta : ¬ s.thermal_c > 32 := not_lt.mpr (by linarith)
      have htb : ¬ s.thermal_c > 25 + 5 := not_lt.mpr (by linarith)
      simp [trainLabel, predict, defaultTinyRules, h120, h100, hta, htb]
    · have htb : s.thermal_c > 25 + 5 := by linarith
      simp [trainLabel, predict, defaultTinyRules, h120, h100, ht, htb]

/-- Witness for C7: on the bright hot reading (lux 150, thermal 40) both
rule sets say thermal. -/
theorem C7_train_witness :
    trainLabel hotReading.lux hotReading.thermal_c =
      (predict defaultTinyRules hotReading).mode :=
  C7_train_theorem hotReading (Or.inr (by norm_num [hotReading]))
    (Or.inr (by norm_num [hotReading]))

/-- C8: the visibility score equals the spec's clamp(0,1, base +
0.5 × colour_difference) formula with base = max(0, 1 − lux/50000) and
colour_difference the mean-RGB distance over 255 for colour_fill patterns
and the fixed constant 0.2 (inside the spec's [0.2,0.25] band, identical
for darker and thermal-match) otherwise; the score always lies in [0,1]. -/
theorem C8_visibility_theorem :
    (∀ (s : SensorReading) (p : Pattern),
      evaluate_pattern_visibility s p = visibilitySpec s p) ∧
    (∀ s : SensorReading, evaluate_pattern_visibility s .darker =
      evaluate_pattern_visibility s .thermalMatch) ∧
    (∀ s : SensorReading, evaluate_pattern_visibility s .darker =
      max 0 (min 1 (max 0 (1 - s.lux / 50000) + 1 / 2 * (2 / 10)))) ∧
    (∀ (s : SensorReading) (p : Pattern),
      0 ≤ evaluate_pattern_visibility s p ∧ evaluate_pattern_visibility s p ≤ 1) := by
  refine ⟨?_, fun s => rfl, fun s => rfl, ?_⟩
  · intro s p
    rcases p with _ | _ | ⟨r, g, b⟩ <;> rfl
  · intro s p
    dsimp only [evaluate_pattern_visibility]
    exact ⟨le_max_left _ _, max_le (by norm_num) (min_le_left _ _)⟩

/-- C9: the runtime estimate is (battery_mAh/1000 × voltage) over the sum
of the three wattages; a zero total draw returns float("inf") rather than
raising; with 3000 mAh at 5 V and a 6.5 W total draw the estimate is
30/13 ≈ 2.3077 hours, within 0.01 of 2.31. -/
theorem C9_runtime_theorem :
    (∀ (pm : PowerManager) (a c s : ℚ), worst_case_power_w a c s = 0 →
      expected_runtime_hours pm a c s = .posInf) ∧
    (∀ (pm : PowerManager) (a c s : ℚ), 0 < worst_case_power_w a c s →
      expected_runtime_hours pm a c s =
        .hours (pm.battery_mah / 1000 * pm.voltage / (a + c + s))) ∧
    worst_case_power_w 5 1 (1 / 2) = 13 / 2 ∧
    expected_runtime_hours pmApp 5 1 (1 / 2) = .hours (30 / 13) ∧
    |(30 : ℚ) / 13 - 231 / 100| ≤ 1 / 100 := by
  refine ⟨?_, ?_, by norm_num [worst_case_power_w],
    by norm_num [expected_runtime_hours, worst_case_power_w, pmApp],
    by rw [abs_le]; constructor <;> norm_num⟩
  · intro pm a c s h
    simp [expected_runtime_hours, h]
  · intro pm a c s h
    have h0 : 0 < a + c + s := h
    have hne : ¬ worst_case_power_w a c s ≤ 0 := by
      intro hc
      have hc0 : a + c + s ≤ 0 := hc
      linarith
    unfold expected_runtime_hours
    rw [if_neg hne]
    simp [worst_case_power_w]

/-- Witness for C9: the finite-case formula applied to the app's power
manager at the default wattages. -/
theorem C9_runtime_witness :
    expected_runtime_hours pmApp 5 1 (1 / 2) =
      .hours (pmApp.battery_mah / 1000 * pmApp.voltage / (5 + 1 + 1 / 2)) :=
  C9_runtime_theorem.2.1 pmApp 5 1 (1 / 2) (by norm_num [worst_case_power_w])

/-- C10: the LED-matrix dispatch grid holds in every one of its 8×16 cells
the pattern's rgb value when the pattern has one and (0,0,0) otherwise, so
darker and thermal-match give the identical all-black grid, and
apply_pattern replaces the entire stored state with the grid. -/
theorem C10_led_theorem :
    (∀ (p : Pattern) (row : List (Nat × Nat × Nat)), row ∈ ledGridFor ledAct p →
      ∀ cell ∈ row, cell = p.getRgbD) ∧
    (∀ r g b : Nat, (Pattern.colourFill (r, g, b)).getRgbD = (r, g, b)) ∧
    Pattern.darker.getRgbD = (0, 0, 0) ∧
    Pattern.thermalMatch.getRgbD = (0, 0, 0) ∧
    ledGridFor ledAct .darker = ledGridFor ledAct .thermalMatch ∧
    ledAct.width = 16 ∧ ledAct.height = 8 ∧
    (∀ p : Pattern, (ledGridFor ledAct p).length = 8) ∧
    (∀ (p : Pattern) (row : List (Nat × Nat × Nat)), row ∈ ledGridFor ledAct p →
      row.length = 16) ∧
    (∀ (act : LEDMatrixActuator) (grid : List (List (Nat × Nat × Nat))),
      (apply_pattern act grid).state = grid) := by
  refine ⟨?_, fun r g b => rfl, rfl, rfl, rfl, rfl, rfl, fun p => rfl, ?_,
    fun act grid => rfl⟩
  · intro p row hrow cell hcell
    have hrow' : row = List.replicate ledAct.width p.getRgbD :=
      (List.mem_replicate.mp
        (show row ∈ List.replicate ledAct.height (List.replicate ledAct.width p.getRgbD)
          from hrow)).2
    exact (List.mem_replicate.mp (hrow' ▸ hcell)).2
  · intro p row hrow
    have hrow' : row = List.replicate ledAct.width p.getRgbD :=
      (List.mem_replicate.mp
        (show row ∈ List.replicate ledAct.height (List.replicate ledAct.width p.getRgbD)
          from hrow)).2
    rw [hrow']
    simp [ledAct, ledInit]

/-- Witness for C10: a cell taken from the grid of a colour_fill (9,8,7)
pattern equals that RGB. -/
theorem C10_led_witness :
    ((9, 8, 7) : Nat × Nat × Nat) = (Pattern.colourFill (9, 8, 7)).getRgbD :=
  C10_led_theorem.1 (Pattern.colourFill (9, 8, 7)) (List.replicate 16 (9, 8, 7))
    (by decide) (9, 8, 7) (by decide)

end Suit
